import Mathlib

/-!
Verification of the facecompare similarity core (`comparison.js`, `config.js`).

Numbers are modelled as exact rationals (`ℚ`): every literal in the source is
a decimal fraction and every operation used on the verified paths (addition,
subtraction, multiplication, division, `Math.min`/`Math.max`, comparisons)
is exact on these values, so the rational model coincides with the
JavaScript double semantics on the inputs considered here.

The external face-recognition library's `faceapi.euclideanDistance` is an
excluded collaborator; the core only calls it.  It is modelled as an abstract
parameter `euclideanDistance : D → D → ℚ` over an abstract descriptor type.
-/

namespace FaceCompare

/-- ThresholdConfig: the four similarity-band boundaries from `config.js`. -/
structure ThresholdConfig where
  veryHigh : ℚ
  high : ℚ
  good : ℚ
  low : ℚ
deriving DecidableEq, Repr

/-- CONFIG.similarity from `config.js`. -/
structure SimilarityConfig where
  thresholds : ThresholdConfig
  sunglassesAdjustment : ℚ
  multiReferenceMethod : String
deriving DecidableEq, Repr

/-- the static CONFIG.similarity object of `config.js` (lines 162-171). -/
def CONFIG_similarity : SimilarityConfig :=
  { thresholds :=
      { veryHigh := 0.4
        high := 0.5
        good := 0.6
        low := 0.7 }
    sunglassesAdjustment := 0.1
    multiReferenceMethod := "average" }

/-- SimilarityResult: the value returned by `computeSimilarity`. -/
structure SimilarityResult where
  similarity : ℚ
  confidence : String
  isMatch : Bool
deriving DecidableEq, Repr

/-- the "Very High" band formula: `95 + ((t.veryHigh + adjust) - distance) * 12.5`. -/
def veryHighFormula (adjust distance : ℚ) : ℚ :=
  95 + ((CONFIG_similarity.thresholds.veryHigh + adjust) - distance) * 12.5

/-- the "High" band formula: `85 + ((t.high + adjust) - distance) * 100`. -/
def highFormula (adjust distance : ℚ) : ℚ :=
  85 + ((CONFIG_similarity.thresholds.high + adjust) - distance) * 100

/-- the "Good" band formula: `70 + ((t.good + adjust) - distance) * 150`. -/
def goodFormula (adjust distance : ℚ) : ℚ :=
  70 + ((CONFIG_similarity.thresholds.good + adjust) - distance) * 150

/-- the "Low" band formula: `50 + ((t.low + adjust) - distance) * 200`. -/
def lowFormula (adjust distance : ℚ) : ℚ :=
  50 + ((CONFIG_similarity.thresholds.low + adjust) - distance) * 200

/-- the "Very Low" band formula: `Math.max(0, 50 - (distance - (t.low + adjust)) * 100)`. -/
def veryLowFormula (adjust distance : ℚ) : ℚ :=
  max 0 (50 - (distance - (CONFIG_similarity.thresholds.low + adjust)) * 100)

/-- computeSimilarity from `comparison.js` lines 10-40: ordered band tests with
strict `<` against each adjusted boundary, then the band formula, then the
final clamp `Math.min(100, Math.max(0, similarity))`. -/
def computeSimilarity (distance : ℚ) (anySunglasses : Bool := false) : SimilarityResult :=
  let adjust : ℚ := if anySunglasses then CONFIG_similarity.sunglassesAdjustment else 0
  let t := CONFIG_similarity.thresholds
  let band : ℚ × String × Bool :=
    if distance < t.veryHigh + adjust then
      (veryHighFormula adjust distance, "Very High", true)
    else if distance < t.high + adjust then
      (highFormula adjust distance, "High", true)
    else if distance < t.good + adjust then
      (goodFormula adjust distance, "Good", true)
    else if distance < t.low + adjust then
      (lowFormula adjust distance, "Low", false)
    else
      (veryLowFormula adjust distance, "Very Low", false)
  { similarity := min 100 (max 0 band.1)
    confidence := band.2.1
    isMatch := band.2.2 }

/-- the piecewise band value before the final clamp, with the inner
`Math.max` of the last band stripped (clamping once more with `max 0`
restores it). -/
def rawSimilarity (adjust distance : ℚ) : ℚ :=
  let t := CONFIG_similarity.thresholds
  if distance < t.veryHigh + adjust then veryHighFormula adjust distance
  else if distance < t.high + adjust then highFormula adjust distance
  else if distance < t.good + adjust then goodFormula adjust distance
  else if distance < t.low + adjust then lowFormula adjust distance
  else 50 - (distance - (t.low + adjust)) * 100

/-- MultiReferenceResult: the value returned by `computeMultiReferenceSimilarity`
(the SimilarityResult fields plus distances, finalDistance, method, referenceCount). -/
structure MultiReferenceResult where
  similarity : ℚ
  confidence : String
  isMatch : Bool
  distances : List ℚ
  finalDistance : ℚ
  method : String
  referenceCount : Nat
deriving DecidableEq, Repr

/-- Math.min applied to a spread argument list.  `Math.min()` of no arguments
is +Infinity; the empty case cannot be reached here because
`computeMultiReferenceSimilarity` guards against an empty reference list, so
the value chosen for `[]` is arbitrary. -/
def jsMathMin : List ℚ → ℚ
  | [] => 0
  | x :: xs => xs.foldl min x

/-- the `switch (method)` block of `computeMultiReferenceSimilarity`
(part_001 lines 86-106), reducing the per-reference distances to one scalar:
`'best'` takes `Math.min(...distances)`; `'median'` sorts a copy ascending
with `(a, b) => a - b` and takes the middle element (odd count) or the mean
of the two middle elements (even count); `'average'` and the `default` case
both take `distances.reduce((sum, d) => sum + d, 0) / distances.length`. -/
def finalDistanceOf (method : String) (distances : List ℚ) : ℚ :=
  if method = "best" then
    jsMathMin distances
  else if method = "median" then
    let sorted := distances.insertionSort (· ≤ ·)
    let mid := sorted.length / 2
    if sorted.length % 2 = 0 then
      (sorted.getD (mid - 1) 0 + sorted.getD mid 0) / 2
    else
      sorted.getD mid 0
  else
    distances.foldl (fun sum d => sum + d) 0 / (distances.length : ℚ)

/-- computeMultiReferenceSimilarity from the comparison module (part_001
lines 74-117).  The external `faceapi.euclideanDistance` is passed as an
abstract function over an abstract descriptor type `D`.  The thrown
`Error('No reference descriptors provided')` is modelled as `Except.error`
carrying the message. -/
def computeMultiReferenceSimilarity {D : Type} (euclideanDistance : D → D → ℚ)
    (refDescriptors : List D) (compareDescriptor : D)
    (anySunglasses : Bool := false) (method : String := "average") :
    Except String MultiReferenceResult :=
  if refDescriptors.length = 0 then
    Except.error "No reference descriptors provided"
  else
    let distances := refDescriptors.map fun refDesc =>
      euclideanDistance refDesc compareDescriptor
    let finalDistance := finalDistanceOf method distances
    let result := computeSimilarity finalDistance anySunglasses
    Except.ok
      { similarity := result.similarity
        confidence := result.confidence
        isMatch := result.isMatch
        distances := distances
        finalDistance := finalDistance
        method := method
        referenceCount := refDescriptors.length }

theorem computeMultiReferenceSimilarity_ok {D : Type} (dist : D → D → ℚ)
    (refs : List D) (c : D) (s : Bool) (m : String) (hne : refs ≠ []) :
    computeMultiReferenceSimilarity dist refs c s m
      = Except.ok
          { similarity :=
              (computeSimilarity
                (finalDistanceOf m (refs.map fun refDesc => dist refDesc c)) s).similarity
            confidence :=
              (computeSimilarity
                (finalDistanceOf m (refs.map fun refDesc => dist refDesc c)) s).confidence
            isMatch :=
              (computeSimilarity
                (finalDistanceOf m (refs.map fun refDesc => dist refDesc c)) s).isMatch
            distances := refs.map fun refDesc => dist refDesc c
            finalDistance := finalDistanceOf m (refs.map fun refDesc => dist refDesc c)
            method := m
            referenceCount := refs.length } := by
  simp only [computeMultiReferenceSimilarity, List.length_eq_zero, hne, if_false]

/-- DetectedFace: the fields of a detection-result face consumed by
`computeAllSimilarities` (descriptor, sunglasses flag, ages). -/
structure Face (D : Type) where
  descriptor : D
  hasSunglasses : Bool
  refAge : Option ℚ
  age : Option ℚ
deriving DecidableEq, Repr

/-- one comparison image: `comp.file.name` and its detected faces. -/
structure ComparisonImage (D : Type) where
  fileName : String
  faces : List (Face D)
deriving DecidableEq, Repr

/-- ComparisonRecord: one element pushed onto `results` by
`computeAllSimilarities` (comparison.js lines 58-70). -/
structure ComparisonRecord where
  fileName : String
  imageIndex : Nat
  faceIndex : Nat
  similarity : ℚ
  confidence : String
  isMatch : Bool
  distance : ℚ
  hasSunglasses : Bool
  referenceSunglasses : Bool
  refAge : Option ℚ
  compAge : Option ℚ
deriving DecidableEq, Repr

/-- the record list built by the two nested `forEach` loops of
`computeAllSimilarities` (comparison.js lines 52-72): comparison images in
input order, faces within each image in input order, one record per face.
`compAge` models `typeof face.age === 'number' ? face.age : null`. -/
def buildRecords {D : Type} (euclideanDistance : D → D → ℚ) (refDescriptor : D)
    (comparisons : List (ComparisonImage D)) (refHasSunglasses : Bool) :
    List ComparisonRecord :=
  comparisons.enum.flatMap fun (imgIndex, comp) =>
    comp.faces.enum.map fun (faceIndex, face) =>
      let distance := euclideanDistance refDescriptor face.descriptor
      let anySunglasses := refHasSunglasses || face.hasSunglasses
      let result := computeSimilarity distance anySunglasses
      { fileName := comp.fileName
        imageIndex := imgIndex
        faceIndex := faceIndex
        similarity := result.similarity
        confidence := result.confidence
        isMatch := result.isMatch
        distance := distance
        hasSunglasses := face.hasSunglasses
        referenceSunglasses := refHasSunglasses
        refAge := face.refAge
        compAge := face.age }

/-- the comparator `(a, b) => b.similarity - a.similarity` of
`results.sort(...)` (comparison.js line 74): record `a` may stay before `b`
exactly when `b.similarity ≤ a.similarity` (descending order). -/
def bySimilarityDesc (a b : ComparisonRecord) : Prop :=
  b.similarity ≤ a.similarity

instance : DecidableRel bySimilarityDesc := fun a b =>
  inferInstanceAs (Decidable (b.similarity ≤ a.similarity))

instance : IsTotal ComparisonRecord bySimilarityDesc :=
  ⟨fun a b => le_total b.similarity a.similarity⟩

instance : IsTrans ComparisonRecord bySimilarityDesc :=
  ⟨fun _ _ _ h1 h2 => le_trans h2 h1⟩

/-- computeAllSimilarities from comparison.js lines 49-75: build one record
per face in input order, then `results.sort((a, b) => b.similarity -
a.similarity)`.  ECMAScript `Array.prototype.sort` is specified as a stable
sort with respect to the comparator, which is exactly what
`List.insertionSort` with the reflexive descending relation computes. -/
def computeAllSimilarities {D : Type} (euclideanDistance : D → D → ℚ)
    (refDescriptor : D) (comparisons : List (ComparisonImage D))
    (refHasSunglasses : Bool := false) : List ComparisonRecord :=
  List.insertionSort bySimilarityDesc
    (buildRecords euclideanDistance refDescriptor comparisons refHasSunglasses)

/-- C1: for the default ThresholdConfig (veryHigh=0.4, high=0.5, good=0.6,
low=0.7) and no sunglasses adjustment, `computeSimilarity` assigns confidence
and isMatch by the ordered strict-`<` band tests: 0.39 gives "Very High" with
a match, 0.45 "High", 0.55 "Good", 0.65 "Low" without a match, 0.9
"Very Low"; a distance exactly equal to a boundary falls into the band below
it in sensitivity (0.4 gives "High", 0.5 "Good", 0.6 "Low", 0.7 "Very Low"). -/
theorem C1_computeSimilarity_bands :
    (computeSimilarity 0.39).confidence = "Very High"
      ∧ (computeSimilarity 0.39).isMatch = true
    ∧ (computeSimilarity 0.45).confidence = "High"
    ∧ (computeSimilarity 0.55).confidence = "Good"
    ∧ (computeSimilarity 0.65).confidence = "Low"
      ∧ (computeSimilarity 0.65).isMatch = false
    ∧ (computeSimilarity 0.9).confidence = "Very Low"
    ∧ (computeSimilarity 0.4).confidence = "High"
    ∧ (computeSimilarity 0.5).confidence = "Good"
    ∧ (computeSimilarity 0.6).confidence = "Low"
    ∧ (computeSimilarity 0.7).confidence = "Very Low" := by
  refine ⟨?_, ?_, ?_, ?_, ?_, ?_, ?_, ?_, ?_, ?_, ?_⟩ <;>
    norm_num [computeSimilarity, CONFIG_similarity]

/-- C3: for every input distance (any sign or magnitude) and either
sunglasses flag, the similarity field of the result of `computeSimilarity`
lies in [0, 100]: the final clamp guarantees it, and the function is total
(no exception). -/
theorem C3_similarity_within_bounds (distance : ℚ) (anySunglasses : Bool) :
    0 ≤ (computeSimilarity distance anySunglasses).similarity ∧
    (computeSimilarity distance anySunglasses).similarity ≤ 100 := by
  unfold computeSimilarity
  exact ⟨le_min (by norm_num) (le_max_left 0 _), min_le_left _ _⟩

/-- C4: with the adjustment fixed, the band formulas used by
`computeSimilarity` agree at every band boundary: at each of the four
adjusted boundaries the formula of the band below equals the formula of the
band above, and in particular both the "Very High" and the "High" formula
give 95 at distance 0.4 when the adjustment is 0. -/
theorem C4_band_continuity (adjust : ℚ) :
    veryHighFormula adjust (CONFIG_similarity.thresholds.veryHigh + adjust)
      = highFormula adjust (CONFIG_similarity.thresholds.veryHigh + adjust)
  ∧ highFormula adjust (CONFIG_similarity.thresholds.high + adjust)
      = goodFormula adjust (CONFIG_similarity.thresholds.high + adjust)
  ∧ goodFormula adjust (CONFIG_similarity.thresholds.good + adjust)
      = lowFormula adjust (CONFIG_similarity.thresholds.good + adjust)
  ∧ lowFormula adjust (CONFIG_similarity.thresholds.low + adjust)
      = veryLowFormula adjust (CONFIG_similarity.thresholds.low + adjust)
  ∧ veryHighFormula 0 0.4 = 95
  ∧ highFormula 0 0.4 = 95 := by
  refine ⟨?_, ?_, ?_, ?_, ?_, ?_⟩ <;>
    simp only [veryHighFormula, highFormula, goodFormula, lowFormula,
      veryLowFormula, CONFIG_similarity] <;>
    ring_nf <;>
    norm_num

/-- C5: passing anySunglasses = true shifts every band boundary upward by
exactly the default sunglassesAdjustment 0.1: for every distance d the
confidence of `computeSimilarity d true` equals the confidence of
`computeSimilarity (d - 0.1) false`. -/
theorem C5_sunglasses_shift (distance : ℚ) :
    (computeSimilarity distance true).confidence
      = (computeSimilarity (distance - 0.1) false).confidence := by
  simp only [computeSimilarity, CONFIG_similarity]
  norm_num
  split_ifs <;> first | rfl | linarith

theorem computeSimilarity_similarity_eq (distance : ℚ) (anySunglasses : Bool) :
    (computeSimilarity distance anySunglasses).similarity
      = min 100 (max 0 (rawSimilarity
          (if anySunglasses then CONFIG_similarity.sunglassesAdjustment else 0) distance)) := by
  cases anySunglasses <;>
    simp only [computeSimilarity, rawSimilarity, Bool.false_eq_true, if_false, if_true] <;>
    split_ifs <;>
    simp [veryLowFormula, ← max_assoc]

theorem rawSimilarity_antitone (adjust : ℚ) {d1 d2 : ℚ} (h : d1 ≤ d2) :
    rawSimilarity adjust d2 ≤ rawSimilarity adjust d1 := by
  simp only [rawSimilarity, veryHighFormula, highFormula, goodFormula, lowFormula,
    CONFIG_similarity]
  norm_num
  split_ifs <;> linarith

theorem computeSimilarity_isMatch_iff (distance : ℚ) (anySunglasses : Bool) :
    (computeSimilarity distance anySunglasses).isMatch = true
      ↔ distance < CONFIG_similarity.thresholds.good
          + (if anySunglasses then CONFIG_similarity.sunglassesAdjustment else 0) := by
  cases anySunglasses <;>
    simp only [computeSimilarity, CONFIG_similarity, Bool.false_eq_true, if_false, if_true] <;>
    norm_num <;>
    split_ifs <;>
    simp_all <;>
    linarith

/-- C10: for a fixed sunglasses flag and the default thresholds,
`computeSimilarity` is antitone in distance: for distances d1 ≤ d2 the
similarity at d2 is at most the similarity at d1, and if d2 yields a match
verdict then so does d1. -/
theorem C10_computeSimilarity_antitone (anySunglasses : Bool) (d1 d2 : ℚ)
    (h : d1 ≤ d2) :
    (computeSimilarity d2 anySunglasses).similarity
      ≤ (computeSimilarity d1 anySunglasses).similarity
  ∧ ((computeSimilarity d2 anySunglasses).isMatch = true
      → (computeSimilarity d1 anySunglasses).isMatch = true) := by
  constructor
  · rw [computeSimilarity_similarity_eq, computeSimilarity_similarity_eq]
    exact min_le_min le_rfl (max_le_max le_rfl (rawSimilarity_antitone _ h))
  · rw [computeSimilarity_isMatch_iff, computeSimilarity_isMatch_iff]
    intro h2
    exact lt_of_le_of_lt h h2

/-- C10 witness: the antitone theorem applied at d1 = 3/10, d2 = 1/2 with no
sunglasses. -/
theorem C10_computeSimilarity_antitone_witness :
    mkRat 3 10 ≤ mkRat 1 2
  ∧ ((computeSimilarity (mkRat 1 2) false).similarity
        ≤ (computeSimilarity (mkRat 3 10) false).similarity
    ∧ ((computeSimilarity (mkRat 1 2) false).isMatch = true
        → (computeSimilarity (mkRat 3 10) false).isMatch = true)) :=
  ⟨by decide, C10_computeSimilarity_antitone false (mkRat 3 10) (mkRat 1 2) (by decide)⟩

/-- C6: `computeMultiReferenceSimilarity` signals the error
"No reference descriptors provided" exactly when the reference descriptor
list is empty; for every non-empty list it produces a result, so the empty
list is the only error condition. -/
theorem C6_empty_reference_error {D : Type} (dist : D → D → ℚ)
    (refs : List D) (c : D) (s : Bool) (m : String) :
    computeMultiReferenceSimilarity dist ([] : List D) c s m
        = Except.error "No reference descriptors provided"
  ∧ ((∃ e, computeMultiReferenceSimilarity dist refs c s m = Except.error e)
        ↔ refs = []) := by
  constructor
  · simp [computeMultiReferenceSimilarity]
  · constructor
    · rintro ⟨e, he⟩
      by_contra hne
      rw [computeMultiReferenceSimilarity_ok dist refs c s m hne] at he
      exact Except.noConfusion he
    · rintro rfl
      exact ⟨"No reference descriptors provided", by simp [computeMultiReferenceSimilarity]⟩

/-- C7 counterexample: with one reference, calling
`computeMultiReferenceSimilarity` with the unrecognized method "weighted"
silently computes the average, but the `method` field of the result is the
raw string "weighted", not the resolved name "average". -/
theorem C7_method_field_counterexample :
    (computeMultiReferenceSimilarity (fun a b : ℚ => a * b) [1] 2 false "weighted").map
        MultiReferenceResult.method = Except.ok "weighted"
  ∧ (computeMultiReferenceSimilarity (fun a b : ℚ => a * b) [1] 2 false "weighted").map
        MultiReferenceResult.finalDistance = Except.ok 2
  ∧ ("weighted" : String) ≠ "average" := by
  rw [computeMultiReferenceSimilarity_ok (fun a b : ℚ => a * b) [1] 2 false "weighted"
    (by decide)]
  refine ⟨rfl, ?_, by decide⟩
  simp only [Except.map, finalDistanceOf, if_neg (by decide : ¬("weighted" = "best")),
    if_neg (by decide : ¬("weighted" = "median")), Except.ok.injEq]
  norm_num

/-- C7 (amended): for every method argument outside {"best", "average",
"median"}, `computeMultiReferenceSimilarity` raises no error and silently
computes finalDistance as the arithmetic mean of the distances; the `method`
field of the result is the method argument exactly as passed (the silent
fallback is not reflected in the field). -/
theorem C7_unrecognized_method_is_average {D : Type} (dist : D → D → ℚ)
    (refs : List D) (c : D) (s : Bool) (m : String) (hne : refs ≠ [])
    (hbest : m ≠ "best") (havg : m ≠ "average") (hmed : m ≠ "median") :
    (∃ r, computeMultiReferenceSimilarity dist refs c s m = Except.ok r)
  ∧ ∀ r, computeMultiReferenceSimilarity dist refs c s m = Except.ok r →
      r.finalDistance = r.distances.sum / (r.distances.length : ℚ)
      ∧ r.method = m := by
  constructor
  · exact ⟨_, computeMultiReferenceSimilarity_ok dist refs c s m hne⟩
  · intro r hr
    rw [computeMultiReferenceSimilarity_ok dist refs c s m hne,
      Except.ok.injEq] at hr
    subst hr
    refine ⟨?_, rfl⟩
    simp only [finalDistanceOf, if_neg hbest, if_neg hmed, List.sum_eq_foldl]

/-- C7 witness: the amended theorem applied to one reference and the
unrecognized method "weighted". -/
theorem C7_unrecognized_method_witness :
    ([(1 : ℚ)] ≠ []) ∧ ("weighted" : String) ≠ "best"
  ∧ ("weighted" : String) ≠ "average" ∧ ("weighted" : String) ≠ "median"
  ∧ ((∃ r, computeMultiReferenceSimilarity (fun a b : ℚ => a * b) [1] 2 false "weighted"
        = Except.ok r)
    ∧ ∀ r, computeMultiReferenceSimilarity (fun a b : ℚ => a * b) [1] 2 false "weighted"
          = Except.ok r →
        r.finalDistance = r.distances.sum / (r.distances.length : ℚ)
        ∧ r.method = "weighted") :=
  ⟨by decide, by decide, by decide, by decide,
    C7_unrecognized_method_is_average (fun a b : ℚ => a * b) [1] 2 false "weighted"
      (by decide) (by decide) (by decide) (by decide)⟩

/-- C9: for every non-empty reference list and any method, the result's
distances field lists the distance from each reference to the comparison
descriptor in the original input order (never sorted), and its length equals
referenceCount which equals the number of references. -/
theorem C9_distances_in_input_order {D : Type} (dist : D → D → ℚ)
    (refs : List D) (c : D) (s : Bool) (m : String) (hne : refs ≠ []) :
    ∀ r, computeMultiReferenceSimilarity dist refs c s m = Except.ok r →
      r.distances = refs.map (fun refDesc => dist refDesc c)
      ∧ r.distances.length = r.referenceCount
      ∧ r.referenceCount = refs.length := by
  intro r hr
  rw [computeMultiReferenceSimilarity_ok dist refs c s m hne, Except.ok.injEq] at hr
  subst hr
  exact ⟨rfl, by simp, rfl⟩

/-- C9 witness: the input-order theorem applied with method "median" to two
references whose distances 9/10 and 1/10 arrive in descending order, so the
internally sorted copy differs from the reported distances field. -/
theorem C9_distances_in_input_order_witness :
    ([mkRat 9 10, mkRat 1 10] ≠ ([] : List ℚ))
  ∧ ∀ r, computeMultiReferenceSimilarity (fun a (_ : ℚ) => a) [mkRat 9 10, mkRat 1 10] 0
        false "median" = Except.ok r →
      r.distances = [mkRat 9 10, mkRat 1 10].map (fun refDesc => (fun a (_ : ℚ) => a) refDesc 0)
      ∧ r.distances.length = r.referenceCount
      ∧ r.referenceCount = [mkRat 9 10, mkRat 1 10].length :=
  ⟨by decide,
    C9_distances_in_input_order (fun a (_ : ℚ) => a) [mkRat 9 10, mkRat 1 10] 0 false
      "median" (by decide)⟩

theorem foldl_min_le_init : ∀ (xs : List ℚ) (a : ℚ), xs.foldl min a ≤ a
  | [], a => le_refl a
  | x :: xs, a => le_trans (foldl_min_le_init xs (min a x)) (min_le_left a x)

theorem foldl_min_le_mem : ∀ (xs : List ℚ) (a y : ℚ), y ∈ xs → xs.foldl min a ≤ y
  | x :: xs, a, y, h => by
    rcases List.mem_cons.mp h with rfl | h'
    · exact le_trans (foldl_min_le_init xs (min a y)) (min_le_right a y)
    · exact foldl_min_le_mem xs (min a x) y h'

theorem foldl_min_mem : ∀ (xs : List ℚ) (a : ℚ), xs.foldl min a = a ∨ xs.foldl min a ∈ xs
  | [], _ => Or.inl rfl
  | x :: xs, a => by
    rcases foldl_min_mem xs (min a x) with h | h
    · rcases min_choice a x with h2 | h2
      · exact Or.inl (by rw [List.foldl_cons, h, h2])
      · refine Or.inr ?_
        rw [List.foldl_cons, h, h2]
        exact List.mem_cons_self x xs
    · exact Or.inr (List.mem_cons_of_mem x h)

theorem jsMathMin_le (l : List ℚ) (y : ℚ) (hy : y ∈ l) : jsMathMin l ≤ y := by
  cases l with
  | nil => cases hy
  | cons x xs =>
    rcases List.mem_cons.mp hy with rfl | h'
    · exact foldl_min_le_init xs y
    · exact foldl_min_le_mem xs x y h'

theorem jsMathMin_mem (l : List ℚ) (h : l ≠ []) : jsMathMin l ∈ l := by
  cases l with
  | nil => exact absurd rfl h
  | cons x xs =>
    rcases foldl_min_mem xs x with h2 | h2
    · rw [jsMathMin, h2]
      exact List.mem_cons_self x xs
    · rw [jsMathMin]
      exact List.mem_cons_of_mem x h2

theorem finalDistanceOf_singleton (m : String) (x : ℚ) : finalDistanceOf m [x] = x := by
  simp only [finalDistanceOf]
  split_ifs <;> norm_num [jsMathMin, List.insertionSort, List.orderedInsert, List.getD]

/-- C2: for every non-empty reference list, finalDistance is derived from the
per-reference distances according to the method: "best" gives the minimum of
the distances; "median" gives the middle element of an ascending-sorted
permutation of the distances when their count is odd, or the mean of the two
middle elements when even (in particular the even-length distance list
[0.3, 0.5, 0.7, 0.9] reduces to 0.6); "average" gives the arithmetic mean;
and with a single reference every method gives the distance to that
reference. -/
theorem C2_final_distance_by_method {D : Type} (dist : D → D → ℚ)
    (refs : List D) (c : D) (s : Bool) (hne : refs ≠ []) :
    (∀ r, computeMultiReferenceSimilarity dist refs c s "best" = Except.ok r →
        r.finalDistance ∈ r.distances ∧ ∀ x ∈ r.distances, r.finalDistance ≤ x)
  ∧ (∀ r, computeMultiReferenceSimilarity dist refs c s "average" = Except.ok r →
        r.finalDistance = r.distances.sum / (r.distances.length : ℚ))
  ∧ (∀ r, computeMultiReferenceSimilarity dist refs c s "median" = Except.ok r →
        ∃ sorted : List ℚ, sorted.Perm r.distances ∧ sorted.Sorted (· ≤ ·) ∧
          r.finalDistance =
            if sorted.length % 2 = 0 then
              (sorted.getD (sorted.length / 2 - 1) 0 + sorted.getD (sorted.length / 2) 0) / 2
            else sorted.getD (sorted.length / 2) 0)
  ∧ (∀ a, refs = [a] →
        ∀ m r, computeMultiReferenceSimilarity dist refs c s m = Except.ok r →
          r.finalDistance = dist a c)
  ∧ (∀ r, computeMultiReferenceSimilarity (fun a (_ : ℚ) => a)
        [(0.3 : ℚ), 0.5, 0.7, 0.9] 0 s "median" = Except.ok r →
        r.finalDistance = 0.6) := by
  refine ⟨?_, ?_, ?_, ?_, ?_⟩
  · intro r hr
    rw [computeMultiReferenceSimilarity_ok dist refs c s "best" hne,
      Except.ok.injEq] at hr
    subst hr
    have hd : (refs.map fun refDesc => dist refDesc c) ≠ [] := by
      simpa using hne
    simp only [finalDistanceOf, if_pos rfl]
    exact ⟨jsMathMin_mem _ hd, fun x hx => jsMathMin_le _ x hx⟩
  · intro r hr
    rw [computeMultiReferenceSimilarity_ok dist refs c s "average" hne,
      Except.ok.injEq] at hr
    subst hr
    simp only [finalDistanceOf, if_neg (by decide : ¬("average" = "best")),
      if_neg (by decide : ¬("average" = "median")), List.sum_eq_foldl]
  · intro r hr
    rw [computeMultiReferenceSimilarity_ok dist refs c s "median" hne,
      Except.ok.injEq] at hr
    subst hr
    refine ⟨(refs.map fun refDesc => dist refDesc c).insertionSort (· ≤ ·),
      List.perm_insertionSort _ _, List.sorted_insertionSort _ _, ?_⟩
    simp [finalDistanceOf, if_neg (by decide : ¬("median" = "best"))]
  · rintro a rfl m r hr
    rw [computeMultiReferenceSimilarity_ok dist [a] c s m (by simp),
      Except.ok.injEq] at hr
    subst hr
    simpa using finalDistanceOf_singleton m (dist a c)
  · intro r hr
    rw [computeMultiReferenceSimilarity_ok (fun a (_ : ℚ) => a)
      [(0.3 : ℚ), 0.5, 0.7, 0.9] 0 s "median" (by simp), Except.ok.injEq] at hr
    subst hr
    simp only [List.map]
    norm_num [finalDistanceOf, if_neg (by decide : ¬("median" = "best")),
      List.insertionSort, List.orderedInsert, List.getD]

/-- C2 witness: the reduction-method theorem applied to the single reference
list [1/2]. -/
theorem C2_final_distance_by_method_witness :
    ([mkRat 1 2] ≠ ([] : List ℚ))
  ∧ ((∀ r, computeMultiReferenceSimilarity (fun a (_ : ℚ) => a) [mkRat 1 2] 0 false "best"
          = Except.ok r →
        r.finalDistance ∈ r.distances ∧ ∀ x ∈ r.distances, r.finalDistance ≤ x)
    ∧ (∀ r, computeMultiReferenceSimilarity (fun a (_ : ℚ) => a) [mkRat 1 2] 0 false "average"
          = Except.ok r →
        r.finalDistance = r.distances.sum / (r.distances.length : ℚ))
    ∧ (∀ r, computeMultiReferenceSimilarity (fun a (_ : ℚ) => a) [mkRat 1 2] 0 false "median"
          = Except.ok r →
        ∃ sorted : List ℚ, sorted.Perm r.distances ∧ sorted.Sorted (· ≤ ·) ∧
          r.finalDistance =
            if sorted.length % 2 = 0 then
              (sorted.getD (sorted.length / 2 - 1) 0 + sorted.getD (sorted.length / 2) 0) / 2
            else sorted.getD (sorted.length / 2) 0)
    ∧ (∀ a, [mkRat 1 2] = [a] →
        ∀ m r, computeMultiReferenceSimilarity (fun a (_ : ℚ) => a) [mkRat 1 2] 0 false m
            = Except.ok r →
          r.finalDistance = (fun a (_ : ℚ) => a) a 0)
    ∧ (∀ r, computeMultiReferenceSimilarity (fun a (_ : ℚ) => a)
          [(0.3 : ℚ), 0.5, 0.7, 0.9] 0 false "median" = Except.ok r →
        r.finalDistance = 0.6)) :=
  ⟨by decide,
    C2_final_distance_by_method (fun a (_ : ℚ) => a) [mkRat 1 2] 0 false (by decide)⟩

theorem length_enum_flatMap {α β : Type} (l : List α) (f : ℕ × α → List β)
    (n : α → ℕ) (hf : ∀ p, (f p).length = n p.2) :
    (l.enum.flatMap f).length = (l.map n).sum := by
  rw [List.length_flatMap]
  have h1 : l.enum.map (List.length ∘ f) = l.enum.map fun p => n p.2 :=
    List.map_congr_left fun p _ => hf p
  have h2 : l.map n = l.enum.map fun p => n p.2 := by
    conv_lhs => rw [← List.enum_map_snd l]
    rw [List.map_map]
    rfl
  rw [h1, h2]

/-- C8: `computeAllSimilarities` returns a permutation of the records built
by visiting comparison images in input order and faces within each image in
input order, exactly one record per detected face; the returned sequence is
sorted descending by similarity, and ties keep input-encounter order (any two
records with equal similarity that appear as a sublist-pair of the built list
still appear in the same relative order in the output); in the two-image
scenario with one face at distance 0.35 in image A and one at 0.55 in image
B, A's record precedes B's and its similarity is strictly larger. -/
theorem C8_ranking_sorted_stable {D : Type} (dist : D → D → ℚ) (refD : D)
    (comps : List (ComparisonImage D)) (refS : Bool) :
    (computeAllSimilarities dist refD comps refS).Perm
        (buildRecords dist refD comps refS)
  ∧ (computeAllSimilarities dist refD comps refS).length
      = (comps.map fun comp => comp.faces.length).sum
  ∧ (computeAllSimilarities dist refD comps refS).Sorted bySimilarityDesc
  ∧ (∀ a b, [a, b].Sublist (buildRecords dist refD comps refS) →
        a.similarity = b.similarity →
        [a, b].Sublist (computeAllSimilarities dist refD comps refS))
  ∧ ((computeAllSimilarities (fun (_ y : ℚ) => y) 0
        [⟨"A", [⟨0.35, false, none, none⟩]⟩,
         ⟨"B", [⟨0.55, false, none, none⟩]⟩] false).map
          (fun record => (record.fileName, record.similarity))
        = [("A", 765/8), ("B", 155/2)]
      ∧ (155 : ℚ)/2 < 765/8) := by
  refine ⟨List.perm_insertionSort _ _, ?_, List.sorted_insertionSort _ _, ?_, ?_, by norm_num⟩
  · rw [computeAllSimilarities,
      (List.perm_insertionSort bySimilarityDesc _).length_eq, buildRecords]
    refine length_enum_flatMap comps _ _ fun p => ?_
    obtain ⟨i, comp⟩ := p
    simp [List.enum_length]
  · intro a b hsub heq
    exact List.pair_sublist_insertionSort (le_of_eq heq.symm) hsub
  · have hb : buildRecords (fun (_ y : ℚ) => y) 0
        [⟨"A", [⟨0.35, false, none, none⟩]⟩,
         ⟨"B", [⟨0.55, false, none, none⟩]⟩] false
        = [⟨"A", 0, 0, 765/8, "Very High", true, 0.35, false, false, none, none⟩,
           ⟨"B", 1, 0, 155/2, "Good", true, 0.55, false, false, none, none⟩] := by
      norm_num [buildRecords, computeSimilarity, CONFIG_similarity, veryHighFormula,
        goodFormula, List.enum, List.enumFrom]
    rw [computeAllSimilarities, hb]
    norm_num [List.insertionSort, List.orderedInsert, bySimilarityDesc]

/-- C8 witness: the stability part of the ranking theorem applied to two
faces at the same distance 0.5 (similarity 85) in two different images; the
record from image "A" stays before the record from image "B" in the ranked
output. -/
theorem C8_ranking_sorted_stable_witness :
    List.Sublist
      [(⟨"A", 0, 0, 85, "Good", true, 0.5, false, false, none, none⟩ : ComparisonRecord),
       ⟨"B", 1, 0, 85, "Good", true, 0.5, false, false, none, none⟩]
      (computeAllSimilarities (fun (_ y : ℚ) => y) 0
        [⟨"A", [⟨0.5, false, none, none⟩]⟩,
         ⟨"B", [⟨0.5, false, none, none⟩]⟩] false) := by
  have hb : buildRecords (fun (_ y : ℚ) => y) 0
      [⟨"A", [⟨0.5, false, none, none⟩]⟩,
       ⟨"B", [⟨0.5, false, none, none⟩]⟩] false
      = [⟨"A", 0, 0, 85, "Good", true, 0.5, false, false, none, none⟩,
         ⟨"B", 1, 0, 85, "Good", true, 0.5, false, false, none, none⟩] := by
    norm_num [buildRecords, computeSimilarity, CONFIG_similarity, goodFormula,
      List.enum, List.enumFrom]
  exact (C8_ranking_sorted_stable (fun (_ y : ℚ) => y) 0
      [⟨"A", [⟨0.5, false, none, none⟩]⟩,
       ⟨"B", [⟨0.5, false, none, none⟩]⟩] false).2.2.2.1 _ _
    (hb ▸ List.Sublist.refl _) rfl

end FaceCompare
